import Mathlib

/-!
Verification of `hdf_to_tif.py`, a command-line pipeline that converts an
HDF satellite image to TIFF by orchestrating three external tools
(a stat tool, a conversion tool and a reprojection tool).

Python strings are modelled as `List Char`; Python `dict`s as ordered
association lists with first-insertion-position, last-value-wins update
semantics.  The external world (tool exit codes, the contents of the header
file the stat tool writes) is a `World` record, and the pipeline is a pure
function from a `World` and the arguments to the list of tools invoked and
the final process outcome.
-/

/-- Python strings, modelled as lists of characters. -/
abbrev Str := List Char

/-- ASCII lower-casing of one character, as Python `str.lower` acts on the
ASCII letters (the only letters this program's data contains). -/
def pyLowerChar (c : Char) : Char :=
  match c with
  | 'A' => 'a' | 'B' => 'b' | 'C' => 'c' | 'D' => 'd' | 'E' => 'e'
  | 'F' => 'f' | 'G' => 'g' | 'H' => 'h' | 'I' => 'i' | 'J' => 'j'
  | 'K' => 'k' | 'L' => 'l' | 'M' => 'm' | 'N' => 'n' | 'O' => 'o'
  | 'P' => 'p' | 'Q' => 'q' | 'R' => 'r' | 'S' => 's' | 'T' => 't'
  | 'U' => 'u' | 'V' => 'v' | 'W' => 'w' | 'X' => 'x' | 'Y' => 'y'
  | 'Z' => 'z' | c => c

/-- ASCII upper-casing of one character, as Python `str.upper` acts on the
ASCII letters. -/
def pyUpperChar (c : Char) : Char :=
  match c with
  | 'a' => 'A' | 'b' => 'B' | 'c' => 'C' | 'd' => 'D' | 'e' => 'E'
  | 'f' => 'F' | 'g' => 'G' | 'h' => 'H' | 'i' => 'I' | 'j' => 'J'
  | 'k' => 'K' | 'l' => 'L' | 'm' => 'M' | 'n' => 'N' | 'o' => 'O'
  | 'p' => 'P' | 'q' => 'Q' | 'r' => 'R' | 's' => 'S' | 't' => 'T'
  | 'u' => 'U' | 'v' => 'V' | 'w' => 'W' | 'x' => 'X' | 'y' => 'Y'
  | 'z' => 'Z' | c => c

/-- Python `s.lower()`. -/
def pyLower (s : Str) : Str := s.map pyLowerChar

/-- Python `s.upper()`. -/
def pyUpper (s : Str) : Str := s.map pyUpperChar

/-- Python `sep.join(xs)` for a one-character separator. -/
def pyJoin (sep : Char) : List Str → Str
  | [] => []
  | [l] => l
  | l :: l2 :: ls => l ++ sep :: pyJoin sep (l2 :: ls)

/-- Python `s.split(sep)` for a one-character separator: splits on every
occurrence, keeping empty pieces (`"".split(sep) == [""]`). -/
def pySplit (sep : Char) : Str → List Str
  | [] => [[]]
  | c :: cs =>
    if c = sep then [] :: pySplit sep cs
    else
      match pySplit sep cs with
      | [] => [[c]]
      | l :: ls => (c :: l) :: ls

/-- Python `s.strip(" ")`: removes leading and trailing space characters
(only spaces, not tabs or newlines). -/
def stripSpaces (s : Str) : Str :=
  ((s.dropWhile (fun c => c == ' ')).reverse.dropWhile (fun c => c == ' ')).reverse

/-- Python `text.replace("\\\n", "")`: removes every backslash-newline pair,
scanning left to right without rescanning (`str.replace` semantics). -/
def removeContinuations : Str → Str
  | '\\' :: '\n' :: cs => removeContinuations cs
  | c :: cs => c :: removeContinuations cs
  | [] => []

/-- Python `text.replace("\t", " ")`. -/
def replaceTabs (s : Str) : Str :=
  s.map (fun c => if c = '\t' then ' ' else c)

/-- Python dict assignment `d[k] = v` on an ordered association list:
if the key is present its value is overwritten in place (keeping the
first-insertion position), otherwise the pair is appended. -/
def dictSet (d : List (Str × Str)) (k v : Str) : List (Str × Str) :=
  if d.any (fun p => p.1 == k) then
    d.map (fun p => if p.1 == k then (p.1, v) else p)
  else
    d ++ [(k, v)]

/-- `CVT_CMD` from the source. -/
def CVT_CMD : Str := "/home/erik/bin/heg/bin/resample".data

/-- `STAT_CMD` from the source. -/
def STAT_CMD : Str := "/home/erik/bin/heg/bin/hegtool".data

/-- `WARP_CMD` from the source. -/
def WARP_CMD : Str := "/usr/bin/gdalwarp".data

/-- `DEF_CONF` from the source: the default ordered configuration for the
conversion tool, in the insertion order of the Python `OrderedDict`. -/
def DEF_CONF : List (Str × Str) := [
  ("input_filename".data, "".data),
  ("object_name".data, "".data),
  ("field_name".data, "".data),
  ("band_number".data, "1".data),
  ("spatial_subset_ul_corner".data, "".data),
  ("spatial_subset_lr_corner".data, "".data),
  ("resampling_type".data, "BI".data),
  ("output_projection_type".data, "GEO".data),
  ("ellipsoid_code".data, "WGS84".data),
  ("output_projection_parameters".data,
    "( 0.0 0.0 0.0 0.0 0.0 0.0 0.0 0.0 0.0 0.0 0.0 0.0 0.0 0.0 0.0  )".data),
  ("output_filename".data, "".data),
  ("output_type".data, "GEO".data)]

/-- `BANDS` from the source: product code → band alias → field name. -/
def BANDS : List (Str × List (Str × Str)) := [
  ("MOD13Q1".data, [
    ("ndvi".data, "250m 16 days NDVI".data),
    ("evi".data, "250m 16 days EVI".data),
    ("vi-quality".data, "250m 16 days VI Quality".data),
    ("red".data, "250m 16 days red reflectance".data),
    ("nir".data, "250m 16 days NIR reflectance".data),
    ("blue".data, "250m 16 days blue reflectance".data),
    ("mir".data, "250m 16 days MIR reflectance".data),
    ("day".data, "250m 16 days composite day of the year".data),
    ("pix-rel".data, "250m 16 days pixel reliability".data)]),
  ("MYD13Q1".data, [
    ("ndvi".data, "250m 16 days NDVI".data),
    ("evi".data, "250m 16 days EVI".data),
    ("vi-quality".data, "250m 16 days VI Quality".data),
    ("red".data, "250m 16 days red reflectance".data),
    ("nir".data, "250m 16 days NIR reflectance".data),
    ("blue".data, "250m 16 days blue reflectance".data),
    ("mir".data, "250m 16 days MIR reflectance".data),
    ("day".data, "250m 16 days composite day of the year".data),
    ("pix-rel".data, "250m 16 days pixel reliability".data)])]

/-- One `"{} = {}".format(k.upper(), v)` line of the configuration text. -/
def conf_line (kv : Str × Str) : Str :=
  pyUpper kv.1 ++ " = ".data ++ kv.2

/-- `mk_conf_str` from the source: formats the configuration in the HEG
conversion tool's format. -/
def mk_conf_str (conf : List (Str × Str)) : Str :=
  pyJoin '\n' [
    "".data,
    "NUM_RUNS = 1".data,
    "".data,
    "BEGIN".data,
    pyJoin '\n' (conf.map conf_line),
    "END".data,
    "".data]

/-- One element of the dict comprehension in `stat`:
`l.split("=")[0].lower()` paired with `l.split("=")[1]`.  Returns `none`
when the line has no `=` (Python raises `IndexError` there). -/
def parseLine (l : Str) : Option (Str × Str) :=
  match pySplit '=' l with
  | k :: v :: _ => some (pyLower k, v)
  | _ => none

/-- The line list `stat` builds from the header text: continuations joined,
tabs normalized, split on newlines, each line stripped of surrounding
spaces, blank lines dropped. -/
def stat_lines (text : Str) : List Str :=
  ((pySplit '\n' (replaceTabs (removeContinuations text))).map stripSpaces).filter
    (fun l => !l.isEmpty)

/-- Left-to-right construction of the dict comprehension in `stat`
(duplicate keys overwrite, `none` on a line without `=`). -/
def buildDict (d : List (Str × Str)) : List Str → Option (List (Str × Str))
  | [] => some d
  | l :: ls =>
    match parseLine l with
    | some kv => buildDict (dictSet d kv.1 kv.2) ls
    | none => none

/-- The parsing part of `stat` from the source (lines 192-200): maps the
header file's text to the parameter mapping, `none` when some line has no
`=` (the Python code raises `IndexError` there). -/
def stat_parse (text : Str) : Option (List (Str × Str)) :=
  buildDict [] (stat_lines text)

/-- `BANDS.get(product, {}).get(band, band)` from the source: the field
name for a product code and band alias, falling back to the alias itself. -/
def resolve_field (product band : Str) : Str :=
  (List.lookup band ((List.lookup product BANDS).getD [])).getD band

/-- The configuration assembly of `hdf_to_tif` (source lines 214-227):
merges computed fields over `DEF_CONF`.  `none` models the `KeyError`
raised when a required key is absent from the stat mapping. -/
def mk_hdf_conf (inp_fp out_fp band : Str) (params : List (Str × Str)) :
    Option (List (Str × Str)) := do
  let ul ← List.lookup "grid_ul_corner_latlon".data params
  let lr ← List.lookup "grid_lr_corner_latlon".data params
  let gn ← List.lookup "grid_names".data params
  let product ← List.lookup "input_shortname".data params
  let conf := dictSet DEF_CONF "input_filename".data inp_fp
  let conf := dictSet conf "output_filename".data out_fp
  let conf := dictSet conf "spatial_subset_ul_corner".data
    ("( ".data ++ ul ++ " )".data)
  let conf := dictSet conf "spatial_subset_lr_corner".data
    ("( ".data ++ lr ++ " )".data)
  let conf := dictSet conf "object_name".data
    ((gn.filter (fun c => c != ',')) ++ "|".data)
  let conf := dictSet conf "field_name".data (resolve_field product band)
  some conf

/-- Python `inp[-4:]`: the last four characters (the whole string when it is
shorter). -/
def pySliceLast4 (s : Str) : Str := s.drop (s.length - 4)

/-- The default-output-path derivation of `main` (source lines 266-270):
`inp + ".tif"` unless the last four characters lower-case to `".hdf"`, in
which case they are replaced by `".tif"`. -/
def derive_out_fp (inp : Str) : Str :=
  if ¬ (pyLower (pySliceLast4 inp) = ".hdf".data) then
    inp ++ ".tif".data
  else
    inp.take (inp.length - 4) ++ ".tif".data

/-- The argument vector `run_warp_cmd` passes to the reprojection tool
(source lines 168-174): note `proj.upper()`. -/
def run_warp_cmd_argv (inp_fp out_fp proj : Str) : List Str :=
  [WARP_CMD, inp_fp, out_fp, "-t_srs".data, pyUpper proj]

/-- The three external tools the pipeline can invoke. -/
inductive Tool where
  | stat
  | convert
  | warp
deriving DecidableEq, Repr

/-- The external world one run observes: each tool's exit status and the
contents of the header file the stat tool writes. -/
structure World where
  stat_exit : Nat
  stat_hdr : Str
  convert_exit : Nat
  warp_exit : Nat

/-- The Python exceptions the pipeline can die of: `CalledProcessError`
from `subprocess.run(..., check=True)`, `KeyError` from a missing stat
key, `IndexError` from a header line without `=`. -/
inductive PyExc where
  | calledProcessError (t : Tool) (code : Nat)
  | keyError
  | indexError
deriving DecidableEq, Repr

/-- How the process ends: normal completion, `error()` called (usage
error), help printed, or an uncaught exception. -/
inductive Outcome where
  | ok
  | usageError (msg : Str)
  | helpShown
  | uncaught (e : PyExc)
deriving DecidableEq, Repr

/-- The process exit status for each outcome.  `error()` calls `exit(1)`;
an uncaught Python exception makes the interpreter exit with status 1;
a normal return (including the help path) exits 0. -/
def exit_code : Outcome → Nat
  | .ok => 0
  | .usageError _ => 1
  | .helpShown => 0
  | .uncaught _ => 1

/-- The `error: <message>` lines the run prints on standard output.
Only `error()` (`print("error:", msg)`) produces one; an uncaught
exception writes its traceback to standard error, not standard output. -/
def stdout_error_lines : Outcome → List Str
  | .usageError m => ["error: ".data ++ m]
  | _ => []

/-- `hdf_to_tif` from the source as a pure function: which tools are
invoked, in order, and how the process ends.  Each tool is invoked and on
non-zero exit `subprocess.run(check=True)` raises `CalledProcessError`,
which nothing catches; parsing and configuration failures likewise raise.
The warp step runs only when `proj` is non-empty (Python truthiness). -/
def hdf_to_tif_model (w : World) (inp_fp out_fp band proj : Str) :
    List Tool × Outcome :=
  if w.stat_exit ≠ 0 then
    ([.stat], .uncaught (.calledProcessError .stat w.stat_exit))
  else
    match stat_parse w.stat_hdr with
    | none => ([.stat], .uncaught .indexError)
    | some params =>
      match mk_hdf_conf inp_fp out_fp band params with
      | none => ([.stat], .uncaught .keyError)
      | some _ =>
        if w.convert_exit ≠ 0 then
          ([.stat, .convert],
            .uncaught (.calledProcessError .convert w.convert_exit))
        else if ¬ proj.isEmpty then
          if w.warp_exit ≠ 0 then
            ([.stat, .convert, .warp],
              .uncaught (.calledProcessError .warp w.warp_exit))
          else ([.stat, .convert, .warp], .ok)
        else ([.stat, .convert], .ok)

/-- The command-line arguments after `oarg` parsing: `none` means the
argument was not found; `proj` defaults to the empty string; `hlp` and
`silence` default to false. -/
structure Args where
  inp : Option Str
  band : Option Str
  out : Option Str
  silence : Bool
  proj : Str
  hlp : Bool

/-- `main` from the source as a pure function: help check, required
argument validation, default output path derivation, then the pipeline. -/
def main_model (w : World) (a : Args) : List Tool × Outcome :=
  if a.hlp then ([], .helpShown)
  else
    match a.inp with
    | none => ([], .usageError "must provide input filepath (use --help)".data)
    | some inp =>
      match a.band with
      | none => ([], .usageError "must provide band (use --help)".data)
      | some band =>
        let out := match a.out with
          | none => derive_out_fp inp
          | some o => o
        hdf_to_tif_model w inp out band a.proj

/-- A well-formed header file text such as the stat tool writes
(`KEY=VALUE` records with no spaces around `=`). -/
def demo_hdr : Str :=
  ("INPUT_SHORTNAME=MOD13Q1\nGRID_UL_CORNER_LATLON=1.0 2.0\n" ++
   "GRID_LR_CORNER_LATLON=3.0 4.0\nGRID_NAMES=MODIS_Grid_16DAY_250m_500m_VI\n").data

/-- Upper-casing never produces a newline from a non-newline character. -/
theorem pyUpperChar_ne_newline (c : Char) (h : c ≠ '\n') : pyUpperChar c ≠ '\n' := by
  unfold pyUpperChar
  split <;> first | decide | exact h

/-- Splitting a separator-free string is the identity (one piece). -/
theorem pySplit_no_sep (sep : Char) : ∀ s : Str, sep ∉ s → pySplit sep s = [s]
  | [], _ => rfl
  | c :: cs, h => by
    have hc : ¬ c = sep := by
      intro e
      exact h (by simp [e])
    have ih := pySplit_no_sep sep cs (fun m => h (List.mem_cons_of_mem c m))
    simp only [pySplit, if_neg hc, ih]

/-- Splitting past a separator-free prefix peels off that prefix. -/
theorem pySplit_append_sep (sep : Char) : ∀ (x r : Str), sep ∉ x →
    pySplit sep (x ++ sep :: r) = x :: pySplit sep r
  | [], r, _ => by simp [pySplit]
  | c :: cs, r, h => by
    have hc : ¬ c = sep := by
      intro e
      exact h (by simp [e])
    have ih := pySplit_append_sep sep cs r (fun m => h (List.mem_cons_of_mem c m))
    simp only [List.cons_append, pySplit, if_neg hc, List.append_eq, ih]

/-- Joining a nonempty tail unfolds one separator. -/
theorem pyJoin_cons_ne_nil (sep : Char) (x : Str) (ys : List Str) (h : ys ≠ []) :
    pyJoin sep (x :: ys) = x ++ sep :: pyJoin sep ys := by
  cases ys with
  | nil => exact absurd rfl h
  | cons y t => rfl

/-- Joining distributes over appending nonempty line lists. -/
theorem pyJoin_append (sep : Char) : ∀ (xs ys : List Str), xs ≠ [] → ys ≠ [] →
    pyJoin sep (xs ++ ys) = pyJoin sep xs ++ sep :: pyJoin sep ys
  | [], _, hx, _ => absurd rfl hx
  | [x], ys, _, hy => by
    rw [List.singleton_append, pyJoin_cons_ne_nil sep x ys hy]
    rfl
  | x :: x2 :: t, ys, _, hy => by
    have ih := pyJoin_append sep (x2 :: t) ys (by simp) hy
    rw [List.cons_append, pyJoin_cons_ne_nil sep x ((x2 :: t) ++ ys) (by simp),
      pyJoin_cons_ne_nil sep x (x2 :: t) (by simp), ih, List.append_assoc]
    rfl

/-- Splitting inverts joining when no line contains the separator. -/
theorem pySplit_pyJoin (sep : Char) : ∀ xs : List Str, xs ≠ [] →
    (∀ x ∈ xs, sep ∉ x) → pySplit sep (pyJoin sep xs) = xs
  | [], hx, _ => absurd rfl hx
  | [x], _, hmem => by
    simp only [pyJoin]
    exact pySplit_no_sep sep x (hmem x (by simp))
  | x :: x2 :: t, _, hmem => by
    have ih := pySplit_pyJoin sep (x2 :: t) (by simp)
      (fun y hy => hmem y (List.mem_cons_of_mem x hy))
    simp only [pyJoin]
    rw [pySplit_append_sep sep x _ (hmem x (by simp)), ih]

/-- The configuration text is the newline-join of its individual lines. -/
theorem mk_conf_str_join_form (conf : List (Str × Str)) (h : conf.map conf_line ≠ []) :
    mk_conf_str conf = pyJoin '\n'
      (["".data, "NUM_RUNS = 1".data, "".data, "BEGIN".data]
        ++ conf.map conf_line ++ ["END".data, "".data]) := by
  have hA : (["".data, "NUM_RUNS = 1".data, "".data, "BEGIN".data] : List Str) ≠ [] := by simp
  have hB : (["END".data, "".data] : List Str) ≠ [] := by simp
  have hLB : conf.map conf_line ++ ["END".data, "".data] ≠ [] := by simp
  have lhs : mk_conf_str conf = pyJoin '\n'
      (["".data, "NUM_RUNS = 1".data, "".data, "BEGIN".data]
        ++ (pyJoin '\n' (conf.map conf_line) :: ["END".data, "".data])) := rfl
  rw [lhs, pyJoin_append '\n' _ _ hA (by simp),
    pyJoin_cons_ne_nil '\n' _ _ hB, List.append_assoc,
    pyJoin_append '\n' _ _ hA hLB, pyJoin_append '\n' _ _ h hB]

/-- C1 (counterexample): on the input `"A = 1\nB = 2\n"` the Metadata
Parser does NOT return the mapping `{"a": "1", "b": "2"}`: the parse
succeeds, but no key `"a"` is present at all (the actual key is `"a "`,
with the space before `=` kept, because the code never trims around `=`). -/
theorem c1_counterexample :
    (stat_parse "A = 1\nB = 2\n".data).bind (fun d => List.lookup "a".data d) = none ∧
    (stat_parse "A = 1\nB = 2\n".data).isSome = true := by decide

/-- C1 (amended): parsing `"A = 1\nB = 2\n"` yields the mapping
`{"a ": " 1", "b ": " 2"}`: keys are lower-cased, but only the leading and
trailing spaces of each whole line are stripped — the whitespace around
`=` stays in both key and value. -/
theorem c1_amended :
    stat_parse "A = 1\nB = 2\n".data =
      some [("a ".data, " 1".data), ("b ".data, " 2".data)] := by decide

/-- C3 (counterexample): for the stat line `"A = B=C"` the parsed value is
`" B"` — the segment strictly between the first and the second `=` — so it
is not `"B=C"` under any whitespace trimming (it does not even contain
`'C'`). -/
theorem c3_counterexample :
    (stat_parse "A = B=C\n".data).bind (fun d => List.lookup "a ".data d) =
      some " B".data ∧
    'C' ∉ " B".data ∧
    some " B".data ≠ some " B=C".data := by decide

/-- C3 (amended): the parser splits each line on every `=` and keeps only
the second segment: for a line `k=v=rest` (with `k` and `v` free of `=`)
the parsed pair is `(lower k, v)`, dropping everything after the second
`=`; concretely `"A = B=C"` maps `"a "` to `" B"`. -/
theorem c3_amended :
    (∀ k v rest : Str, '=' ∉ k → '=' ∉ v →
        parseLine (k ++ '=' :: (v ++ '=' :: rest)) = some (pyLower k, v)) ∧
    stat_parse "A = B=C\n".data = some [("a ".data, " B".data)] := by
  refine ⟨?_, by decide⟩
  intro k v rest hk hv
  simp only [parseLine, pySplit_append_sep '=' k (v ++ '=' :: rest) hk,
    pySplit_append_sep '=' v rest hv]

/-- C3 witness: the general part of the amended claim at the concrete line
`"A = B=C"`. -/
theorem c3_witness :
    parseLine ("A ".data ++ '=' :: (" B".data ++ '=' :: "C".data)) =
      some ("a ".data, " B".data) :=
  c3_amended.1 "A ".data " B".data "C".data (by decide) (by decide)

/-- C8 (counterexample): on `"A = fo\\\no\nB = 2"` (backslash-newline
continuation inside the first value) the parse succeeds but produces no
key `"a"` — so the result is not `{"a": "foo", "b": "2"}`. -/
theorem c8_counterexample :
    (stat_parse "A = fo\\\no\nB = 2".data).bind (fun d => List.lookup "a".data d) = none ∧
    (stat_parse "A = fo\\\no\nB = 2".data).isSome = true := by decide

/-- C8 (amended): the continuation line is correctly joined (the first
value's text becomes `foo`), but as in C1 the whitespace around `=` is
kept: the result is `{"a ": " foo", "b ": " 2"}`. -/
theorem c8_amended :
    stat_parse "A = fo\\\no\nB = 2".data =
      some [("a ".data, " foo".data), ("b ".data, " 2".data)] := by decide

/-- C4: for every nonempty configuration whose keys and values contain no
newline, the formatter's output splits into exactly the lines: a blank
line, `NUM_RUNS = 1`, a blank line, `BEGIN`, one `KEY = VALUE` line per
entry (keys upper-cased, values verbatim, in input order), `END`, and a
trailing blank. -/
theorem c4_conf_formatter (conf : List (Str × Str)) (hne : conf ≠ [])
    (hnl : ∀ kv ∈ conf, '\n' ∉ kv.1 ∧ '\n' ∉ kv.2) :
    pySplit '\n' (mk_conf_str conf) =
      ["".data, "NUM_RUNS = 1".data, "".data, "BEGIN".data]
        ++ conf.map conf_line ++ ["END".data, "".data] := by
  have hmapne : conf.map conf_line ≠ [] := by
    simpa using hne
  rw [mk_conf_str_join_form conf hmapne]
  apply pySplit_pyJoin
  · simp
  · intro x hx
    rcases List.mem_append.1 hx with hx | hx
    · rcases List.mem_append.1 hx with hx | hx
      · fin_cases hx <;> decide
      · obtain ⟨kv, hkv, rfl⟩ := List.mem_map.1 hx
        intro hmem
        rcases List.mem_append.1 hmem with hmem | hmem
        · rcases List.mem_append.1 hmem with hmem | hmem
          · obtain ⟨c, hc, hcu⟩ := List.mem_map.1 hmem
            exact pyUpperChar_ne_newline c (fun e => (hnl kv hkv).1 (e ▸ hc)) hcu
          · simp at hmem
        · exact (hnl kv hkv).2 hmem
    · fin_cases hx <;> decide

/-- C4 witness: the formatter property at a concrete two-entry
configuration. -/
theorem c4_witness :
    pySplit '\n' (mk_conf_str
        [("input_filename".data, "x.hdf".data), ("object_name".data, "M|".data)]) =
      ["".data, "NUM_RUNS = 1".data, "".data, "BEGIN".data]
        ++ [("input_filename".data, "x.hdf".data),
            ("object_name".data, "M|".data)].map conf_line
        ++ ["END".data, "".data] :=
  c4_conf_formatter _ (by decide) (by decide)

/-- Lower-casing commutes with the `[-4:]` slice. -/
theorem pyLower_slice4 (s : Str) :
    pyLower (pySliceLast4 s) = (pyLower s).drop (s.length - 4) := by
  simp [pyLower, pySliceLast4, List.map_drop]

/-- C5: when no explicit output is given, an input whose last four
characters lower-case to `".hdf"` has them replaced by `".tif"`, and any
other input gets `".tif"` appended; in particular `"scene.hdf"` derives
`"scene.tif"` and `"scene.dat"` derives `"scene.dat.tif"`. -/
theorem c5_output_path :
    (∀ p ext : Str, pyLower ext = ".hdf".data →
        derive_out_fp (p ++ ext) = p ++ ".tif".data) ∧
    (∀ s : Str, ¬ (".hdf".data <:+ pyLower s) →
        derive_out_fp s = s ++ ".tif".data) ∧
    derive_out_fp "scene.hdf".data = "scene.tif".data ∧
    derive_out_fp "scene.dat".data = "scene.dat.tif".data := by
  refine ⟨?_, ?_, by decide, by decide⟩
  · intro p ext hext
    have hlen : ext.length = 4 := by
      have h := congrArg List.length hext
      simpa [pyLower] using h
    have hlen4 : (p ++ ext).length - 4 = p.length := by
      simp [List.length_append, hlen]
    have hslice : pySliceLast4 (p ++ ext) = ext := by
      rw [pySliceLast4, hlen4, List.drop_left]
    have htake : (p ++ ext).take ((p ++ ext).length - 4) = p := by
      rw [hlen4, List.take_left]
    simp only [derive_out_fp, hslice, hext, not_true_eq_false, if_false, htake]
  · intro s hsuf
    have hcond : ¬ pyLower (pySliceLast4 s) = ".hdf".data := by
      intro he
      apply hsuf
      rw [pyLower_slice4] at he
      have h2 : (pyLower s).drop (s.length - 4) <:+ pyLower s := List.drop_suffix _ _
      rw [he] at h2
      exact h2
    simp only [derive_out_fp, if_pos hcond]

/-- C5 witness: the two branches at concrete inputs, the first one with a
mixed-case extension. -/
theorem c5_witness :
    derive_out_fp ("SCENE".data ++ ".HDF".data) = "SCENE".data ++ ".tif".data ∧
    derive_out_fp "scene.dat".data = "scene.dat.tif".data :=
  ⟨c5_output_path.1 "SCENE".data ".HDF".data (by decide),
   c5_output_path.2.1 "scene.dat".data (by decide)⟩

/-- C6: the configured field name is the Product Band Table entry for the
product and alias when one exists, and the alias itself otherwise;
`"MOD13Q1"`/`"ndvi"` resolves to `"250m 16 days NDVI"`, and the
unrecognized alias `"foo"` resolves to `"foo"`. -/
theorem c6_band_resolution :
    (∀ product band v : Str,
        List.lookup band ((List.lookup product BANDS).getD []) = some v →
        resolve_field product band = v) ∧
    (∀ product band : Str,
        List.lookup band ((List.lookup product BANDS).getD []) = none →
        resolve_field product band = band) ∧
    resolve_field "MOD13Q1".data "ndvi".data = "250m 16 days NDVI".data ∧
    resolve_field "MOD13Q1".data "foo".data = "foo".data := by
  refine ⟨?_, ?_, by decide, by decide⟩
  · intro p b v h
    rw [resolve_field, h]
    rfl
  · intro p b h
    rw [resolve_field, h]
    rfl

/-- C6 witness: the two general parts at concrete products and aliases. -/
theorem c6_witness :
    resolve_field "MOD13Q1".data "evi".data = "250m 16 days EVI".data ∧
    resolve_field "MYD13Q1".data "bar".data = "bar".data :=
  ⟨c6_band_resolution.1 "MOD13Q1".data "evi".data "250m 16 days EVI".data (by decide),
   c6_band_resolution.2.1 "MYD13Q1".data "bar".data (by decide)⟩

/-- C7: for any stat mapping holding the grid corner fields, the grid-name
field and product shortname `"MOD13Q1"`, the configuration assembled with
band alias `"evi"` exists and has `field_name = "250m 16 days EVI"` and
`object_name` = the grid name with all commas removed plus a trailing
`"|"`. -/
theorem c7_conf_assembly (inp out : Str) (params : List (Str × Str)) (ul lr gn : Str)
    (h1 : List.lookup "grid_ul_corner_latlon".data params = some ul)
    (h2 : List.lookup "grid_lr_corner_latlon".data params = some lr)
    (h3 : List.lookup "grid_names".data params = some gn)
    (h4 : List.lookup "input_shortname".data params = some "MOD13Q1".data) :
    ∃ conf, mk_hdf_conf inp out "evi".data params = some conf ∧
      List.lookup "field_name".data conf = some "250m 16 days EVI".data ∧
      List.lookup "object_name".data conf =
        some ((gn.filter (fun c => c != ',')) ++ "|".data) := by
  unfold mk_hdf_conf
  rw [h1, h2, h3, h4]
  exact ⟨_, rfl, rfl, rfl⟩

/-- C7 witness: the assembly at a concrete stat mapping whose grid name
contains a comma. -/
theorem c7_witness :
    ∃ conf, mk_hdf_conf "a.hdf".data "a.tif".data "evi".data
        [("input_shortname".data, "MOD13Q1".data),
         ("grid_ul_corner_latlon".data, "1.0 2.0".data),
         ("grid_lr_corner_latlon".data, "3.0 4.0".data),
         ("grid_names".data, "GridA,GridB".data)] = some conf ∧
      List.lookup "field_name".data conf = some "250m 16 days EVI".data ∧
      List.lookup "object_name".data conf =
        some (("GridA,GridB".data.filter (fun c => c != ',')) ++ "|".data) :=
  c7_conf_assembly "a.hdf".data "a.tif".data _ "1.0 2.0".data "3.0 4.0".data
    "GridA,GridB".data (by decide) (by decide) (by decide) (by decide)

/-- C10: the reprojection tool's argument vector carries `-t_srs` in
position 3 followed by the projection string upper-cased, never verbatim:
`"epsg:4326"` is passed as `"EPSG:4326"`. -/
theorem c10_warp_projection_uppercased :
    (∀ inp out proj : Str,
        (run_warp_cmd_argv inp out proj)[3]? = some "-t_srs".data ∧
        (run_warp_cmd_argv inp out proj)[4]? = some (pyUpper proj)) ∧
    pyUpper "epsg:4326".data = "EPSG:4326".data ∧
    (run_warp_cmd_argv "in.tif".data "out.tif".data "epsg:4326".data)[4]? =
      some "EPSG:4326".data ∧
    "EPSG:4326".data ≠ "epsg:4326".data :=
  ⟨fun _ _ _ => ⟨rfl, rfl⟩, by decide, by decide, by decide⟩

/-- C2 (counterexample): with the stat tool exiting 1, the pipeline aborts
after only the stat invocation and terminates with exit status 1, but
prints NO `error: <message>` line on standard output (the uncaught
`CalledProcessError` traceback goes to standard error) — contradicting the
claim that every tool failure produces an `error:` line on stdout. -/
theorem c2_counterexample :
    hdf_to_tif_model ⟨1, [], 0, 0⟩ "a.hdf".data "a.tif".data "ndvi".data [] =
      ([Tool.stat], Outcome.uncaught (PyExc.calledProcessError Tool.stat 1)) ∧
    exit_code (hdf_to_tif_model ⟨1, [], 0, 0⟩ "a.hdf".data "a.tif".data
      "ndvi".data []).2 = 1 ∧
    stdout_error_lines (hdf_to_tif_model ⟨1, [], 0, 0⟩ "a.hdf".data "a.tif".data
      "ndvi".data []).2 = [] :=
  ⟨rfl, rfl, rfl⟩

/-- C2 (amended): every external tool invocation that exits non-zero
aborts the pipeline immediately (no later tool is invoked) and terminates
the process with non-zero exit status via an uncaught exception — but no
`error: <message>` line is printed on standard output; that line exists
only for CLI usage errors. -/
theorem c2_tool_failure_aborts (w : World) (inp out band proj : Str) :
    (w.stat_exit ≠ 0 →
      hdf_to_tif_model w inp out band proj =
        ([Tool.stat], Outcome.uncaught (PyExc.calledProcessError Tool.stat w.stat_exit))) ∧
    (w.stat_exit = 0 →
      ((stat_parse w.stat_hdr).bind (mk_hdf_conf inp out band)).isSome = true →
      w.convert_exit ≠ 0 →
      hdf_to_tif_model w inp out band proj =
        ([Tool.stat, Tool.convert],
          Outcome.uncaught (PyExc.calledProcessError Tool.convert w.convert_exit))) ∧
    (w.stat_exit = 0 →
      ((stat_parse w.stat_hdr).bind (mk_hdf_conf inp out band)).isSome = true →
      w.convert_exit = 0 → proj ≠ [] → w.warp_exit ≠ 0 →
      hdf_to_tif_model w inp out band proj =
        ([Tool.stat, Tool.convert, Tool.warp],
          Outcome.uncaught (PyExc.calledProcessError Tool.warp w.warp_exit))) ∧
    (∀ e, exit_code (Outcome.uncaught e) = 1 ∧
      stdout_error_lines (Outcome.uncaught e) = []) := by
  refine ⟨?_, ?_, ?_, fun e => ⟨rfl, rfl⟩⟩
  · intro h
    simp [hdf_to_tif_model, h]
  · intro h0 hsome hc
    cases hps : stat_parse w.stat_hdr with
    | none => rw [hps] at hsome; simp at hsome
    | some ps =>
      cases hconf : mk_hdf_conf inp out band ps with
      | none => rw [hps] at hsome; simp [hconf] at hsome
      | some cf => simp [hdf_to_tif_model, h0, hps, hconf, hc]
  · intro h0 hsome hc hp hw
    cases hps : stat_parse w.stat_hdr with
    | none => rw [hps] at hsome; simp at hsome
    | some ps =>
      cases hconf : mk_hdf_conf inp out band ps with
      | none => rw [hps] at hsome; simp [hconf] at hsome
      | some cf =>
        simp [hdf_to_tif_model, h0, hps, hconf, hc, hp, hw,
          List.isEmpty_iff]

/-- C2 witness: the convert-failure case on a well-formed header, and the
generic uncaught-exception facts. -/
theorem c2_witness :
    hdf_to_tif_model ⟨0, demo_hdr, 9, 0⟩ "a.hdf".data "a.tif".data "ndvi".data [] =
      ([Tool.stat, Tool.convert],
        Outcome.uncaught (PyExc.calledProcessError Tool.convert 9)) :=
  (c2_tool_failure_aborts ⟨0, demo_hdr, 9, 0⟩ "a.hdf".data "a.tif".data
    "ndvi".data []).2.1 rfl (by decide) (by decide)

/-- C9 (counterexample): invoked with the help flag and no input or band
argument, the program prints the help text and exits 0 without starting
any subprocess — so a missing required argument does not always produce a
non-zero exit with an error message. -/
theorem c9_counterexample :
    main_model ⟨1, [], 1, 1⟩ ⟨none, none, none, false, [], true⟩ =
      ([], Outcome.helpShown) ∧
    exit_code (main_model ⟨1, [], 1, 1⟩ ⟨none, none, none, false, [], true⟩).2 = 0 ∧
    stdout_error_lines
      (main_model ⟨1, [], 1, 1⟩ ⟨none, none, none, false, [], true⟩).2 = [] :=
  ⟨rfl, rfl, rfl⟩

/-- C9 (amended): on any invocation without the help flag in which the
input path or the band alias is missing, the program starts no subprocess,
prints an `error: <message>` line on standard output and exits with status
1. -/
theorem c9_missing_arg_usage_error (w : World) (a : Args)
    (hh : a.hlp = false) (hmiss : a.inp = none ∨ a.band = none) :
    (main_model w a).1 = [] ∧
    exit_code (main_model w a).2 = 1 ∧
    ∃ m, (main_model w a).2 = Outcome.usageError m ∧
      stdout_error_lines (main_model w a).2 = ["error: ".data ++ m] := by
  rcases hmiss with hi | hb
  · have hm : main_model w a =
        ([], Outcome.usageError "must provide input filepath (use --help)".data) := by
      simp [main_model, hh, hi]
    rw [hm]
    exact ⟨rfl, rfl, _, rfl, rfl⟩
  · cases hi : a.inp with
    | none =>
      have hm : main_model w a =
          ([], Outcome.usageError "must provide input filepath (use --help)".data) := by
        simp [main_model, hh, hi]
      rw [hm]
      exact ⟨rfl, rfl, _, rfl, rfl⟩
    | some inp =>
      have hm : main_model w a =
          ([], Outcome.usageError "must provide band (use --help)".data) := by
        simp [main_model, hh, hi, hb]
      rw [hm]
      exact ⟨rfl, rfl, _, rfl, rfl⟩

/-- C9 witness: the amended claim at a concrete argument record missing
both required arguments. -/
theorem c9_witness :
    (main_model ⟨1, [], 1, 1⟩ ⟨none, none, none, false, [], false⟩).1 = [] ∧
    exit_code (main_model ⟨1, [], 1, 1⟩ ⟨none, none, none, false, [], false⟩).2 = 1 ∧
    ∃ m, (main_model ⟨1, [], 1, 1⟩ ⟨none, none, none, false, [], false⟩).2 =
        Outcome.usageError m ∧
      stdout_error_lines
        (main_model ⟨1, [], 1, 1⟩ ⟨none, none, none, false, [], false⟩).2 =
        ["error: ".data ++ m] :=
  c9_missing_arg_usage_error ⟨1, [], 1, 1⟩ ⟨none, none, none, false, [], false⟩
    rfl (Or.inl rfl)
